import Mathlib

/-!
Verification of the node-osrm binding layer (`src/node_osrm.cpp`).

The development shallowly embeds the dispatch layer of the binding:
the model of untyped JavaScript values the binding receives, the V8
coercions it applies, the per-operation parameter validation
(`Engine::route`, `Engine::locate`, `Engine::nearest`, `Engine::table`),
the submission step (`Engine::Run`), and the job lifecycle
(`Engine::AsyncRun`, `Engine::AfterRun`).  JavaScript numbers are
modelled as rationals (`Option ℚ`, with `none` standing for NaN);
the C `static_cast<int>` of a double is modelled as truncation toward
zero on ℚ.  The opaque OSRM engine is a parameter
(`EngineQuery := RouteParameters → Except String String`).
-/

namespace NodeOsrm

/-- Model of a JavaScript value as seen through the V8 API used by the
binding.  `errObj` models an `Error` object created by `NanError`.
NaN is not a constructor here; NaN-producing coercions are modelled by
`toNumber` returning `none`. -/
inductive JSVal where
  | undefined
  | null
  | bool (b : Bool)
  | num (q : ℚ)
  | str (s : String)
  | arr (elems : List JSVal)
  | obj (fields : List (String × JSVal))
  | func (id : Nat)
  | errObj (msg : String)

namespace JSVal

/-- `Value::IsObject`: objects, arrays, functions and error objects are
objects; primitives, `null` and `undefined` are not. -/
def isObjectLike : JSVal → Bool
  | obj _ => true
  | arr _ => true
  | func _ => true
  | errObj _ => true
  | _ => false

/-- `Value::IsArray`. -/
def isArray : JSVal → Bool
  | arr _ => true
  | _ => false

/-- `Value::IsString`. -/
def isString : JSVal → Bool
  | str _ => true
  | _ => false

/-- `Value::IsNull`. -/
def isNull : JSVal → Bool
  | null => true
  | _ => false

/-- `Value::IsUndefined`. -/
def isUndefined : JSVal → Bool
  | undefined => true
  | _ => false

/-- `Value::IsFunction`. -/
def isFunction : JSVal → Bool
  | func _ => true
  | _ => false

/-- The element list of an array value (empty for non-arrays). -/
def elems : JSVal → List JSVal
  | arr xs => xs
  | _ => []

end JSVal

/-- `Object::Has(key)` on the own properties of an object value. -/
def hasProp (v : JSVal) (key : String) : Bool :=
  match v with
  | JSVal.obj fields => fields.any (fun f => f.1 == key)
  | _ => false

/-- `Object::Get(key)`: the property's value, `undefined` when absent or
when the receiver is not an object. -/
def getProp (v : JSVal) (key : String) : JSVal :=
  match v with
  | JSVal.obj fields =>
      match fields.find? (fun f => f.1 == key) with
      | some f => f.2
      | none => JSVal.undefined
  | _ => JSVal.undefined

/-- `Value::ToObject`.  `null`/`undefined` are passed through so the
binding's `IsNull`/`IsUndefined` re-check can fire; a primitive becomes a
wrapper object with no own properties of interest; objects are returned
unchanged. -/
def toObject : JSVal → JSVal
  | JSVal.num _ => JSVal.obj []
  | JSVal.str _ => JSVal.obj []
  | JSVal.bool _ => JSVal.obj []
  | v => v

/-- `Value::NumberValue` (ECMAScript ToNumber), with `none` for NaN.
String parsing is modelled only for plain decimal naturals; the full
numeric-string grammar is out of scope (no claim depends on it). -/
def toNumber : JSVal → Option ℚ
  | JSVal.num q => some q
  | JSVal.null => some 0
  | JSVal.bool b => some (if b then 1 else 0)
  | JSVal.str s => (s.toNat?).map (fun n => (n : ℚ))
  | _ => none

/-- `Value::BooleanValue` (ECMAScript ToBoolean). -/
def toBoolean : JSVal → Bool
  | JSVal.undefined => false
  | JSVal.null => false
  | JSVal.bool b => b
  | JSVal.num q => decide (q ≠ 0)
  | JSVal.str s => decide (s ≠ "")
  | _ => true

/-- C truncation toward zero of a rational (model of
`static_cast<int>(double)`); `none` (NaN) is mapped to 0 — the C++ cast
of NaN is undefined behaviour and no claim depends on the value. -/
def doubleToInt : Option ℚ → ℤ
  | none => 0
  | some q => q.num.tdiv q.den

/-- `Value::Uint32Value` (ECMAScript ToUint32): truncate toward zero,
then reduce modulo 2^32 into [0, 2^32). -/
def toUint32 (v : JSVal) : ℕ :=
  match toNumber v with
  | none => 0
  | some q => ((q.num.tdiv q.den) % (2 ^ 32 : ℤ)).toNat

/-- `Value::Int32Value` (ECMAScript ToInt32): truncate toward zero, then
wrap into [-2^31, 2^31). -/
def toInt32 (v : JSVal) : ℤ :=
  match toNumber v with
  | none => 0
  | some q => ((q.num.tdiv q.den + 2 ^ 31) % (2 ^ 32 : ℤ)) - 2 ^ 31

/-- `static_cast<short>` of an int: wrap into [-2^15, 2^15). -/
def castShort (z : ℤ) : ℤ :=
  ((z + 2 ^ 15) % (2 ^ 16 : ℤ)) - 2 ^ 15

/-- `String::Utf8Value` (ECMAScript ToString).  Exact for strings,
booleans, `null` and `undefined`; other conversions are approximated and
exercised by no claim. -/
def toStringJS : JSVal → String
  | JSVal.str s => s
  | JSVal.null => "null"
  | JSVal.undefined => "undefined"
  | JSVal.bool b => if b then "true" else "false"
  | JSVal.num q => toString q
  | JSVal.errObj m => m
  | _ => ""

/-- Modelled from the spec: the fixed global constant
`COORDINATE_PRECISION` comes from the engine's headers, which are outside
this repository; the spec only requires it to be a fixed global constant. -/
def COORDINATE_PRECISION : ℚ := 1000000

/-- One coordinate component as stored by the binding:
`static_cast<int>(value->NumberValue() * COORDINATE_PRECISION)`
(node_osrm.cpp:169-170, 242-243, 293-294, 324-325). -/
def coerceCoordinate (v : JSVal) : ℤ :=
  doubleToInt ((toNumber v).map (fun q => q * COORDINATE_PRECISION))

/-- The typed request descriptor (`RouteParameters` from the engine
headers, restricted to the fields the binding sets). -/
structure RouteParameters where
  zoom_level : ℤ
  print_instructions : Bool
  alternate_route : Bool
  geometry : Bool
  compression : Bool
  check_sum : ℕ
  service : String
  output_format : String
  jsonp_parameter : String
  language : String
  coordinates : List (ℤ × ℤ)
  hints : List String
deriving DecidableEq, Repr

/-- Modelled from the spec: the default-constructed `RouteParameters`
(its constructor lives in the engine headers, outside this repository;
the spec documents the defaults in §3).  `Engine::route` overwrites every
scalar field explicitly (node_osrm.cpp:127-136), so only
`locate`/`nearest`/`table` — whose claims touch none of these scalars —
see these defaults. -/
def RouteParameters.base : RouteParameters where
  zoom_level := 18
  print_instructions := false
  alternate_route := true
  geometry := true
  compression := true
  check_sum := 0
  service := ""
  output_format := ""
  jsonp_parameter := ""
  language := ""
  coordinates := []
  hints := []

/-- The validation message shared by every malformed-coordinates branch. -/
def pairsMsg : String := "coordinates must be an array of (lat/long) pairs"

/-- The fixed-point pair emplaced for one (well-shaped) coordinate entry. -/
def pairCoerce (c : JSVal) : ℤ × ℤ :=
  (coerceCoordinate ((c.elems.get? 0).getD JSVal.undefined),
   coerceCoordinate ((c.elems.get? 1).getD JSVal.undefined))

/-- The per-element coordinate loop of `Engine::route` (lines 155-171)
and `Engine::table` (lines 279-295): each entry must be an array of
length 2; its two components are coerced with `NumberValue` and scaled —
they are never checked for being numbers. -/
def parseCoordinates : List JSVal → Except String (List (ℤ × ℤ))
  | [] => Except.ok []
  | c :: rest =>
      if c.isArray then
        if c.elems.length = 2 then
          match parseCoordinates rest with
          | Except.error m => Except.error m
          | Except.ok tail => Except.ok (pairCoerce c :: tail)
        else Except.error pairsMsg
      else Except.error pairsMsg

/-- The string a hints entry contributes to the descriptor: a string is
kept verbatim, a `null` becomes the empty hint. -/
def hintToString : JSVal → String
  | JSVal.str s => s
  | _ => ""

/-- The hints loop of `Engine::route` (lines 202-212): strings are pushed
verbatim, `null` pushes an empty string, anything else is rejected. -/
def parseHints : List JSVal → Except String (List String)
  | [] => Except.ok []
  | h :: rest =>
      if h.isString then
        match parseHints rest with
        | Except.error m => Except.error m
        | Except.ok tail => Except.ok (hintToString h :: tail)
      else if h.isNull then
        match parseHints rest with
        | Except.error m => Except.error m
        | Except.ok tail => Except.ok ("" :: tail)
      else Except.error "hint must be null or string"

/-- The optional-field block of `Engine::route` (lines 173-191): each
field is applied only when present, through the V8 coercion the source
uses.  The five source `if` blocks touch pairwise distinct fields, so
they are rendered as one simultaneous record update. -/
def applyOptionals (o : JSVal) (p : RouteParameters) : RouteParameters :=
  { p with
    alternate_route := if hasProp o "alternateRoute" then
        toBoolean (getProp o "alternateRoute") else p.alternate_route
    check_sum := if hasProp o "checksum" then
        toUint32 (getProp o "checksum") else p.check_sum
    zoom_level := if hasProp o "zoomLevel" then
        castShort (toInt32 (getProp o "zoomLevel")) else p.zoom_level
    print_instructions := if hasProp o "printInstructions" then
        toBoolean (getProp o "printInstructions") else p.print_instructions
    jsonp_parameter := if hasProp o "jsonpParameter" then
        toStringJS (getProp o "jsonpParameter") else p.jsonp_parameter }

/-- The hints block of `Engine::route` (lines 193-213). -/
def hintsStep (o : JSVal) (p : RouteParameters) : Except String RouteParameters :=
  if hasProp o "hints" then
    let hints := getProp o "hints"
    if hints.isArray then
      match parseHints hints.elems with
      | Except.error m => Except.error m
      | Except.ok hs => Except.ok { p with hints := p.hints ++ hs }
    else Except.error "hints must be an array of strings/null"
  else Except.ok p

/-- Outcome of calling one of the four request operations: either a
synchronous throw (`NanThrowError` / `NanThrowTypeError`; no job exists)
or a job submitted to the worker pool with the built descriptor. -/
inductive SyncOutcome where
  | thrown (msg : String)
  | submitted (p : RouteParameters)
deriving DecidableEq, Repr

/-- The last argument of the call, `args[args.Length()-1]`. -/
def lastArg (args : List JSVal) : JSVal :=
  (args.get? (args.length - 1)).getD JSVal.undefined

/-- The first argument of the call, `args[0]`. -/
def firstArg (args : List JSVal) : JSVal :=
  (args.get? 0).getD JSVal.undefined

/-- Shape accepted by the per-element coordinate checks: an array of
length 2. -/
def goodPair (c : JSVal) : Bool :=
  c.isArray && c.elems.length == 2

/-- Truncation of a rational toward zero, as the spec describes the
coordinate codec: floor for nonnegative input, ceiling for negative
input. -/
def truncTowardZero (q : ℚ) : ℤ :=
  if 0 ≤ q then ⌊q⌋ else ⌈q⌉

/-- The descriptor scalar values `Engine::route` assigns before
validating (node_osrm.cpp:127-136). -/
def routeDefaults : RouteParameters where
  zoom_level := 18
  print_instructions := false
  alternate_route := true
  geometry := true
  compression := true
  check_sum := 0
  service := "viaroute"
  output_format := "json"
  jsonp_parameter := ""
  language := ""
  coordinates := []
  hints := []

/-- `Engine::Run` (lines 330-349): the trailing argument must be a
function, otherwise `NanThrowTypeError`; on success the baton is queued
and the engine handle's reference count incremented. -/
def Run (args : List JSVal) (p : RouteParameters) : SyncOutcome :=
  if (lastArg args).isFunction then SyncOutcome.submitted p
  else SyncOutcome.thrown "last argument must be a callback function"

/-- The validation phase of `Engine::route` (lines 105-213), up to but
not including the call to `Run`. -/
def routeBuild (args : List JSVal) : Except String RouteParameters :=
  if args.length < 2 then Except.error "two arguments required"
  else
    let a0 := firstArg args
    if a0.isObjectLike then
      if a0.isNull || a0.isUndefined then Except.error "first arg must be an object"
      else
        if hasProp a0 "coordinates" then
          let coordinates := getProp a0 "coordinates"
          if coordinates.isArray then
            if coordinates.elems.length < 2 then
              Except.error "at least two coordinates must be provided"
            else
              match parseCoordinates coordinates.elems with
              | Except.error m => Except.error m
              | Except.ok coords =>
                  hintsStep a0 (applyOptionals a0 { routeDefaults with coordinates := coords })
          else Except.error pairsMsg
        else Except.error "must provide a coordinates property"
    else Except.error "two arguments required"

/-- Dispatch of a build result: a validation error is thrown
synchronously; a built descriptor is handed to `Run`. -/
def dispatch (args : List JSVal) : Except String RouteParameters → SyncOutcome
  | Except.error m => SyncOutcome.thrown m
  | Except.ok p => Run args p

/-- `Engine::route` (lines 105-217). -/
def route (args : List JSVal) : SyncOutcome :=
  dispatch args (routeBuild args)

/-- The validation phase of `Engine::table` (lines 249-295).  Unlike
`route`, it neither requires `Has("coordinates")` before `Get` nor
processes a `hints` field. -/
def tableBuild (args : List JSVal) : Except String RouteParameters :=
  if args.length < 2 then Except.error "two arguments required"
  else
    let o := toObject (firstArg args)
    if o.isNull || o.isUndefined then Except.error "first arg must be an object"
    else
      let coordinates := getProp o "coordinates"
      if coordinates.isArray then
        if coordinates.elems.length < 2 then
          Except.error "at least two coordinates must be provided"
        else
          match parseCoordinates coordinates.elems with
          | Except.error m => Except.error m
          | Except.ok coords =>
              Except.ok { RouteParameters.base with service := "table", coordinates := coords }
      else Except.error pairsMsg

/-- `Engine::table` (lines 249-299). -/
def table (args : List JSVal) : SyncOutcome :=
  dispatch args (tableBuild args)

/-- The shared validation phase of `Engine::locate` (lines 219-243) and
`Engine::nearest` (lines 301-325): the first argument must be an array
of length 2; its single coordinate is coerced and stored. -/
def singleCoordBuild (svc : String) (args : List JSVal) : Except String RouteParameters :=
  if args.length < 2 then Except.error "two arguments required"
  else
    let c := firstArg args
    if c.isArray then
      if c.elems.length = 2 then
        Except.ok { RouteParameters.base with service := svc, coordinates := [pairCoerce c] }
      else Except.error "first argument must be an array of lat, long"
    else Except.error "first argument must be an array of lat, long"

/-- `Engine::locate` (lines 219-247). -/
def locate (args : List JSVal) : SyncOutcome :=
  dispatch args (singleCoordBuild "locate" args)

/-- `Engine::nearest` (lines 301-328). -/
def nearest (args : List JSVal) : SyncOutcome :=
  dispatch args (singleCoordBuild "nearest" args)

/-- The engine-construction configuration produced by `Engine::New`
(lines 67-94): the server paths passed to the engine and the
use-shared-memory flag (`args.Length() == 0`).  Only the single
non-string argument shape is rejected by validation; engine-constructor
failures (the catch block) are the opaque collaborator's
ConstructionError, outside this term. -/
def engineNew (args : List JSVal) : Except String (List (String × String) × Bool) :=
  if args.length = 1 then
    match firstArg args with
    | JSVal.str base => Except.ok ([("base", base)], false)
    | _ => Except.error "OSRM base path must be a string"
  else Except.ok ([], args.length = 0)

/-- The opaque engine collaborator: `OSRM::RunQuery` either fills the
reply (payload) or throws (`std::exception::what()` message). -/
def EngineQuery : Type := RouteParameters → Except String String

/-- The baton carried across the worker-pool boundary
(`RunQueryBaton`, lines 96-103), restricted to its result fields. -/
structure RunQueryBaton where
  params : RouteParameters
  result : String
  error : Bool
deriving DecidableEq, Repr

/-- `Engine::AsyncRun` (lines 351-361), run once on a worker thread:
on success the reply content becomes the result; a thrown exception sets
the error flag and stores the exception's message verbatim. -/
def AsyncRun (query : EngineQuery) (b : RunQueryBaton) : RunQueryBaton :=
  match query b.params with
  | Except.ok payload => { b with result := payload, error := false }
  | Except.error m => { b with result := m, error := true }

/-- One invocation of the completion callback, with its argument list. -/
structure CallbackCall where
  argv : List JSVal

/-- `Engine::AfterRun` (lines 363-381), run once on the loop thread:
the error branch invokes the callback with a single `Error` argument;
the success branch invokes it with `(null, result)`. -/
def AfterRun (b : RunQueryBaton) : CallbackCall :=
  if b.error then ⟨[JSVal.errObj b.result]⟩
  else ⟨[JSVal.null, JSVal.str b.result]⟩

/-- The whole lifecycle of one submitted job, threading the engine
handle's reference count: `Run` queues the baton and increments the
count (line 347); the worker runs `AsyncRun` exactly once; the loop then
runs `AfterRun` exactly once, which invokes the callback and decrements
the count (line 378).  Returns the final count and the list of callback
invocations the job performed. -/
def runJob (query : EngineQuery) (refs : ℕ) (p : RouteParameters) :
    ℕ × List CallbackCall :=
  let refsAfterSubmit := refs + 1
  let b := AsyncRun query { params := p, result := "", error := false }
  let call := AfterRun b
  (refsAfterSubmit - 1, [call])

/-- The engine work items a call hands to the worker pool: none when the
call threw synchronously, the built descriptor when a job was submitted. -/
def scheduledWork : SyncOutcome → List RouteParameters
  | SyncOutcome.thrown _ => []
  | SyncOutcome.submitted p => [p]

/-- The completion-handle invocations eventually produced by a call:
none when it threw synchronously, the submitted job's invocations
otherwise. -/
def deliveries (query : EngineQuery) : SyncOutcome → List CallbackCall
  | SyncOutcome.thrown _ => []
  | SyncOutcome.submitted p => (runJob query 0 p).2

/-! ### Helper lemmas -/

theorem tdiv_num_den (q : ℚ) : q.num.tdiv q.den = truncTowardZero q := by
  unfold truncTowardZero
  by_cases h : 0 ≤ q
  · rw [if_pos h, Rat.floor_def]
    exact Int.tdiv_eq_ediv (Rat.num_nonneg.mpr h) (Int.ofNat_nonneg _)
  · rw [if_neg h]
    have hq : q < 0 := lt_of_not_le h
    have hnum : 0 ≤ (-q).num := Rat.num_nonneg.mpr (by linarith)
    have h1 : q.num.tdiv q.den = -((-q.num).tdiv q.den) := by
      rw [Int.neg_tdiv, neg_neg]
    have h2 : ((-q).num : ℤ) = -q.num := Rat.neg_num q
    have h3 : (-q).den = q.den := Rat.neg_den q
    have h4 : (⌈q⌉ : ℤ) = -⌊-q⌋ := by
      rw [Int.floor_neg, neg_neg]
    rw [h4, Rat.floor_def, h2, h3, h1,
        Int.tdiv_eq_ediv (by rw [← h2] at *; exact hnum) (Int.ofNat_nonneg _)]

theorem doubleToInt_some (q : ℚ) : doubleToInt (some q) = truncTowardZero q := by
  simpa [doubleToInt] using tdiv_num_den q

theorem coerceCoordinate_num (a : ℚ) :
    coerceCoordinate (JSVal.num a) = truncTowardZero (a * COORDINATE_PRECISION) := by
  simp [coerceCoordinate, toNumber, doubleToInt_some]

theorem parseHints_ok_map {hs : List JSVal} {l : List String}
    (h : parseHints hs = Except.ok l) : l = hs.map hintToString := by
  induction hs generalizing l with
  | nil => simp [parseHints] at h; simp [h]
  | cons x rest ih =>
      by_cases hx : x.isString = true
      · rw [parseHints, if_pos hx] at h
        cases hr : parseHints rest with
        | error m => rw [hr] at h; exact absurd h (by simp)
        | ok tail =>
            rw [hr] at h
            cases h
            simp [ih hr]
      · by_cases hn : x.isNull = true
        · rw [parseHints, if_neg hx, if_pos hn] at h
          cases hr : parseHints rest with
          | error m => rw [hr] at h; exact absurd h (by simp)
          | ok tail =>
              rw [hr] at h
              cases h
              have hx' : hintToString x = "" := by
                cases x <;> simp_all [JSVal.isNull, hintToString]
              simp [ih hr, hx']
        · rw [parseHints, if_neg hx, if_neg hn] at h
          exact absurd h (by simp)

theorem parseHints_ok_of_all {hs : List JSVal}
    (h : ∀ x ∈ hs, x.isString = true ∨ x.isNull = true) :
    parseHints hs = Except.ok (hs.map hintToString) := by
  induction hs with
  | nil => rfl
  | cons x rest ih =>
      have hrest := ih (fun y hy => h y (List.mem_cons_of_mem _ hy))
      rcases h x (List.mem_cons_self _ _) with hx | hx
      · rw [parseHints, if_pos hx, hrest]
        rfl
      · have hx' : x.isString = false ∨ x.isString = true := by
          cases x.isString <;> simp
        rcases hx' with hs' | hs'
        · rw [parseHints, if_neg (by simp [hs']), if_pos hx, hrest]
          have : hintToString x = "" := by
            cases x <;> simp_all [JSVal.isNull, hintToString]
          simp [this]
        · rw [parseHints, if_pos hs', hrest]
          rfl

theorem parseHints_error_of_bad {hs : List JSVal}
    (h : ∃ x ∈ hs, x.isString = false ∧ x.isNull = false) :
    parseHints hs = Except.error "hint must be null or string" := by
  induction hs with
  | nil => simp at h
  | cons y rest ih =>
      rcases h with ⟨x, hx, hbad⟩
      rcases List.mem_cons.mp hx with rfl | hmem
      · rw [parseHints, if_neg (by simp [hbad.1]), if_neg (by simp [hbad.2])]
      · by_cases hy : y.isString = true
        · rw [parseHints, if_pos hy, ih ⟨x, hmem, hbad⟩]
        · by_cases hn : y.isNull = true
          · rw [parseHints, if_neg hy, if_pos hn, ih ⟨x, hmem, hbad⟩]
          · rw [parseHints, if_neg hy, if_neg hn]

theorem parseCoordinates_ok_of_all {cs : List JSVal}
    (h : ∀ c ∈ cs, goodPair c = true) :
    parseCoordinates cs = Except.ok (cs.map pairCoerce) := by
  induction cs with
  | nil => rfl
  | cons c rest ih =>
      have hc := h c (List.mem_cons_self _ _)
      have h1 : c.isArray = true := by
        simp [goodPair] at hc; exact hc.1
      have h2 : c.elems.length = 2 := by
        simp [goodPair] at hc; exact hc.2
      rw [parseCoordinates, if_pos h1, if_pos h2,
          ih (fun y hy => h y (List.mem_cons_of_mem _ hy))]
      rfl

theorem parseCoordinates_error_of_bad {cs : List JSVal}
    (h : ∃ c ∈ cs, goodPair c = false) :
    parseCoordinates cs = Except.error pairsMsg := by
  induction cs with
  | nil => simp at h
  | cons c rest ih =>
      rcases h with ⟨x, hx, hbad⟩
      rcases List.mem_cons.mp hx with rfl | hmem
      · simp [goodPair] at hbad
        by_cases h1 : x.isArray = true
        · rw [parseCoordinates, if_pos h1, if_neg (hbad h1)]
        · rw [parseCoordinates, if_neg h1]
      · by_cases h1 : c.isArray = true
        · by_cases h2 : c.elems.length = 2
          · rw [parseCoordinates, if_pos h1, if_pos h2, ih ⟨x, hmem, hbad⟩]
          · rw [parseCoordinates, if_pos h1, if_neg h2]
        · rw [parseCoordinates, if_neg h1]

theorem applyOptionals_coordinates (o : JSVal) (p : RouteParameters) :
    (applyOptionals o p).coordinates = p.coordinates := rfl

theorem applyOptionals_hints (o : JSVal) (p : RouteParameters) :
    (applyOptionals o p).hints = p.hints := rfl

theorem hintsStep_absent {o : JSVal} (p : RouteParameters)
    (h : hasProp o "hints" = false) : hintsStep o p = Except.ok p := by
  simp [hintsStep, h]

theorem hintsStep_present_arr {o : JSVal} {hs : List JSVal} {l : List String}
    (p : RouteParameters)
    (h : hasProp o "hints" = true) (ha : getProp o "hints" = JSVal.arr hs)
    (hp : parseHints hs = Except.ok l) :
    hintsStep o p = Except.ok { p with hints := p.hints ++ l } := by
  simp [hintsStep, h, ha, JSVal.isArray, JSVal.elems, hp]

theorem hintsStep_ok_scalars {o : JSVal} {p p' : RouteParameters}
    (h : hintsStep o p = Except.ok p') :
    p'.zoom_level = p.zoom_level ∧ p'.print_instructions = p.print_instructions ∧
    p'.alternate_route = p.alternate_route ∧ p'.check_sum = p.check_sum ∧
    p'.jsonp_parameter = p.jsonp_parameter ∧ p'.coordinates = p.coordinates := by
  by_cases hh : hasProp o "hints" = true
  · rw [hintsStep, if_pos hh] at h
    by_cases ha : (getProp o "hints").isArray = true
    · rw [if_pos ha] at h
      cases hp : parseHints (getProp o "hints").elems with
      | error m => rw [hp] at h; exact absurd h (by simp)
      | ok l => rw [hp] at h; cases h; exact ⟨rfl, rfl, rfl, rfl, rfl, rfl⟩
    · rw [if_neg ha] at h; exact absurd h (by simp)
  · rw [hintsStep, if_neg hh] at h
    cases h
    exact ⟨rfl, rfl, rfl, rfl, rfl, rfl⟩

theorem hintsStep_ok_hints {o : JSVal} {p p' : RouteParameters} {hs : List JSVal}
    (h : hintsStep o p = Except.ok p')
    (hh : hasProp o "hints" = true) (ha : getProp o "hints" = JSVal.arr hs) :
    p'.hints = p.hints ++ hs.map hintToString := by
  rw [hintsStep, if_pos hh, ha] at h
  simp only [JSVal.isArray, if_pos] at h
  cases hp : parseHints (JSVal.arr hs).elems with
  | error m => rw [hp] at h; exact absurd h (by simp)
  | ok l =>
      rw [hp] at h
      cases h
      simp [parseHints_ok_map (by simpa [JSVal.elems] using hp)]

theorem routeBuild_stage {fl : List (String × JSVal)} {cs : List JSVal} (cb : JSVal)
    (hco : getProp (JSVal.obj fl) "coordinates" = JSVal.arr cs)
    (hhas : hasProp (JSVal.obj fl) "coordinates" = true)
    (hlen : 2 ≤ cs.length)
    (hgood : ∀ c ∈ cs, goodPair c = true) :
    routeBuild [JSVal.obj fl, cb] =
      hintsStep (JSVal.obj fl)
        (applyOptionals (JSVal.obj fl)
          { routeDefaults with coordinates := cs.map pairCoerce }) := by
  rw [routeBuild]
  simp only [List.length_cons, List.length_nil, firstArg, List.get?,
    Option.getD, JSVal.isObjectLike, JSVal.isNull, JSVal.isUndefined,
    Bool.or_self, Nat.lt_irrefl, if_false, if_true, Bool.false_eq_true]
  rw [if_pos hhas, hco]
  simp only [JSVal.isArray, JSVal.elems, if_true]
  rw [if_neg (by omega), parseCoordinates_ok_of_all hgood]

theorem route_submitted_inv {args : List JSVal} {p : RouteParameters}
    (h : route args = SyncOutcome.submitted p) :
    routeBuild args = Except.ok p ∧ (lastArg args).isFunction = true := by
  rw [route] at h
  cases hb : routeBuild args with
  | error m => rw [hb] at h; exact absurd h (by simp [dispatch])
  | ok q =>
      rw [hb] at h
      simp only [dispatch, Run] at h
      by_cases hf : (lastArg args).isFunction = true
      · rw [if_pos hf] at h
        cases h
        exact ⟨rfl, hf⟩
      · rw [if_neg hf] at h
        exact absurd h (by simp)

theorem hintsStep_present_err {o : JSVal} {hs : List JSVal} {m : String}
    (p : RouteParameters)
    (h : hasProp o "hints" = true) (ha : getProp o "hints" = JSVal.arr hs)
    (hp : parseHints hs = Except.error m) :
    hintsStep o p = Except.error m := by
  simp [hintsStep, h, ha, JSVal.isArray, JSVal.elems, hp]

theorem toObject_obj (fl : List (String × JSVal)) :
    toObject (JSVal.obj fl) = JSVal.obj fl := rfl

theorem routeBuild_coords_not_array {fl : List (String × JSVal)} {v : JSVal}
    (cb : JSVal)
    (hhas : hasProp (JSVal.obj fl) "coordinates" = true)
    (hco : getProp (JSVal.obj fl) "coordinates" = v)
    (hv : v.isArray = false) :
    routeBuild [JSVal.obj fl, cb] = Except.error pairsMsg := by
  rw [routeBuild]
  simp only [List.length_cons, List.length_nil, firstArg, List.get?,
    Option.getD, JSVal.isObjectLike, JSVal.isNull, JSVal.isUndefined,
    Bool.or_self, Nat.lt_irrefl, if_false, if_true, Bool.false_eq_true]
  rw [if_pos hhas, hco, hv]
  simp

theorem routeBuild_coords_short {fl : List (String × JSVal)} {cs : List JSVal}
    (cb : JSVal)
    (hhas : hasProp (JSVal.obj fl) "coordinates" = true)
    (hco : getProp (JSVal.obj fl) "coordinates" = JSVal.arr cs)
    (hlen : cs.length < 2) :
    routeBuild [JSVal.obj fl, cb] =
      Except.error "at least two coordinates must be provided" := by
  rw [routeBuild]
  simp only [List.length_cons, List.length_nil, firstArg, List.get?,
    Option.getD, JSVal.isObjectLike, JSVal.isNull, JSVal.isUndefined,
    Bool.or_self, Nat.lt_irrefl, if_false, if_true, Bool.false_eq_true]
  rw [if_pos hhas, hco]
  simp only [JSVal.isArray, JSVal.elems, if_true]
  rw [if_pos hlen]

theorem routeBuild_coords_badpair {fl : List (String × JSVal)} {cs : List JSVal}
    (cb : JSVal)
    (hhas : hasProp (JSVal.obj fl) "coordinates" = true)
    (hco : getProp (JSVal.obj fl) "coordinates" = JSVal.arr cs)
    (hlen : 2 ≤ cs.length)
    (hbad : ∃ c ∈ cs, goodPair c = false) :
    routeBuild [JSVal.obj fl, cb] = Except.error pairsMsg := by
  rw [routeBuild]
  simp only [List.length_cons, List.length_nil, firstArg, List.get?,
    Option.getD, JSVal.isObjectLike, JSVal.isNull, JSVal.isUndefined,
    Bool.or_self, Nat.lt_irrefl, if_false, if_true, Bool.false_eq_true]
  rw [if_pos hhas, hco]
  simp only [JSVal.isArray, JSVal.elems, if_true]
  rw [if_neg (by omega), parseCoordinates_error_of_bad hbad]

theorem tableBuild_coords_not_array {fl : List (String × JSVal)} {v : JSVal}
    (cb : JSVal)
    (hco : getProp (JSVal.obj fl) "coordinates" = v)
    (hv : v.isArray = false) :
    tableBuild [JSVal.obj fl, cb] = Except.error pairsMsg := by
  rw [tableBuild]
  simp only [List.length_cons, List.length_nil, firstArg, List.get?,
    Option.getD, toObject_obj, JSVal.isNull, JSVal.isUndefined,
    Bool.or_self, Nat.lt_irrefl, if_false, if_true, Bool.false_eq_true]
  rw [hco, hv]
  simp

theorem tableBuild_coords_short {fl : List (String × JSVal)} {cs : List JSVal}
    (cb : JSVal)
    (hco : getProp (JSVal.obj fl) "coordinates" = JSVal.arr cs)
    (hlen : cs.length < 2) :
    tableBuild [JSVal.obj fl, cb] =
      Except.error "at least two coordinates must be provided" := by
  rw [tableBuild]
  simp only [List.length_cons, List.length_nil, firstArg, List.get?,
    Option.getD, toObject_obj, JSVal.isNull, JSVal.isUndefined,
    Bool.or_self, Nat.lt_irrefl, if_false, if_true, Bool.false_eq_true]
  rw [hco]
  simp only [JSVal.isArray, JSVal.elems, if_true]
  rw [if_pos hlen]

theorem tableBuild_coords_badpair {fl : List (String × JSVal)} {cs : List JSVal}
    (cb : JSVal)
    (hco : getProp (JSVal.obj fl) "coordinates" = JSVal.arr cs)
    (hlen : 2 ≤ cs.length)
    (hbad : ∃ c ∈ cs, goodPair c = false) :
    tableBuild [JSVal.obj fl, cb] = Except.error pairsMsg := by
  rw [tableBuild]
  simp only [List.length_cons, List.length_nil, firstArg, List.get?,
    Option.getD, toObject_obj, JSVal.isNull, JSVal.isUndefined,
    Bool.or_self, Nat.lt_irrefl, if_false, if_true, Bool.false_eq_true]
  rw [hco]
  simp only [JSVal.isArray, JSVal.elems, if_true]
  rw [if_neg (by omega), parseCoordinates_error_of_bad hbad]

theorem tableBuild_stage {fl : List (String × JSVal)} {cs : List JSVal}
    (cb : JSVal)
    (hco : getProp (JSVal.obj fl) "coordinates" = JSVal.arr cs)
    (hlen : 2 ≤ cs.length)
    (hgood : ∀ c ∈ cs, goodPair c = true) :
    tableBuild [JSVal.obj fl, cb] =
      Except.ok { RouteParameters.base with
        service := "table", coordinates := cs.map pairCoerce } := by
  rw [tableBuild]
  simp only [List.length_cons, List.length_nil, firstArg, List.get?,
    Option.getD, toObject_obj, JSVal.isNull, JSVal.isUndefined,
    Bool.or_self, Nat.lt_irrefl, if_false, if_true, Bool.false_eq_true]
  rw [hco]
  simp only [JSVal.isArray, JSVal.elems, if_true]
  rw [if_neg (by omega), parseCoordinates_ok_of_all hgood]

theorem truncTowardZero_intCast (z : ℤ) : truncTowardZero (z : ℚ) = z := by
  unfold truncTowardZero
  split <;> simp

theorem coerceCoordinate_eval {v : JSVal} {a : ℚ} {z : ℤ}
    (hv : toNumber v = some a) (hz : a * COORDINATE_PRECISION = (z : ℚ)) :
    coerceCoordinate v = z := by
  have hm : (toNumber v).map (fun q => q * COORDINATE_PRECISION) =
      some (a * COORDINATE_PRECISION) := by rw [hv]; rfl
  rw [coerceCoordinate, hm, doubleToInt_some, hz, truncTowardZero_intCast]

/-! ### Claim theorems -/

/-- C1: for every job that is submitted, the completion handle is
invoked exactly once (never zero, never twice), and the engine handle's
in-flight reference count — incremented once at submission, decremented
once at completion — returns to its prior value after the job. -/
theorem submitted_job_completes_once_and_restores_refcount :
    ∀ (query : EngineQuery) (refs : ℕ) (p : RouteParameters),
      (runJob query refs p).2.length = 1 ∧ (runJob query refs p).1 = refs := by
  intro q refs p
  exact ⟨rfl, by simp [runJob]⟩

/-- C2: every completed job invokes the callback with exactly one of the
two channels: on an engine payload, with `(null, payload)`; on an engine
exception, with a single `Error` carrying the engine's message verbatim
and no result argument. -/
theorem completion_callback_error_xor_result :
    ∀ (query : EngineQuery) (refs : ℕ) (p : RouteParameters) (s m : String),
      (query p = Except.ok s →
        (runJob query refs p).2 = [⟨[JSVal.null, JSVal.str s]⟩]) ∧
      (query p = Except.error m →
        (runJob query refs p).2 = [⟨[JSVal.errObj m]⟩]) := by
  intro q refs p s m
  constructor <;> intro h <;> simp [runJob, AsyncRun, AfterRun, h]

/-- C2 witness: a successful and a failing engine query, each delivered
through exactly the claimed channel. -/
theorem completion_callback_error_xor_result_witness :
    (runJob (fun _ => Except.ok "payload") 0 RouteParameters.base).2 =
      [⟨[JSVal.null, JSVal.str "payload"]⟩] ∧
    (runJob (fun _ => Except.error "engine failure") 0 RouteParameters.base).2 =
      [⟨[JSVal.errObj "engine failure"]⟩] :=
  ⟨(completion_callback_error_xor_result (fun _ => Except.ok "payload") 0
      RouteParameters.base "payload" "unused").1 rfl,
   (completion_callback_error_xor_result (fun _ => Except.error "engine failure") 0
      RouteParameters.base "unused" "engine failure").2 rfl⟩

/-- C3: whenever any of the four operations fails validation, the
failure is a synchronous throw, no work item reaches the worker pool,
and the completion handle is never invoked. -/
theorem validation_failure_schedules_no_work :
    ∀ (query : EngineQuery) (args : List JSVal) (m : String),
      (route args = SyncOutcome.thrown m →
        scheduledWork (route args) = [] ∧ deliveries query (route args) = []) ∧
      (table args = SyncOutcome.thrown m →
        scheduledWork (table args) = [] ∧ deliveries query (table args) = []) ∧
      (locate args = SyncOutcome.thrown m →
        scheduledWork (locate args) = [] ∧ deliveries query (locate args) = []) ∧
      (nearest args = SyncOutcome.thrown m →
        scheduledWork (nearest args) = [] ∧ deliveries query (nearest args) = []) := by
  intro q args m
  refine ⟨?_, ?_, ?_, ?_⟩ <;> intro h <;> rw [h] <;> exact ⟨rfl, rfl⟩

/-- C3 witness: a zero-argument call fails validation on each operation
and schedules nothing. -/
theorem validation_failure_schedules_no_work_witness :
    (scheduledWork (route []) = [] ∧
      deliveries (fun _ => Except.ok "") (route []) = []) ∧
    (scheduledWork (table []) = [] ∧
      deliveries (fun _ => Except.ok "") (table []) = []) ∧
    (scheduledWork (locate []) = [] ∧
      deliveries (fun _ => Except.ok "") (locate []) = []) ∧
    (scheduledWork (nearest []) = [] ∧
      deliveries (fun _ => Except.ok "") (nearest []) = []) :=
  ⟨(validation_failure_schedules_no_work _ [] "two arguments required").1 rfl,
   (validation_failure_schedules_no_work _ [] "two arguments required").2.1 rfl,
   (validation_failure_schedules_no_work _ [] "two arguments required").2.2.1 rfl,
   (validation_failure_schedules_no_work _ [] "two arguments required").2.2.2 rfl⟩

/-- C6 counterexample: a two-argument construction call is NOT rejected
with "OSRM base path must be a string"; the extra arguments are ignored
and the engine is configured with empty paths and shared memory off. -/
theorem extra_arity_construction_accepted :
    engineNew [JSVal.str "a", JSVal.str "b"] = Except.ok ([], false) := rfl

/-- C6 (amended): zero arguments configure the pre-loaded shared
dataset; a single string argument configures that base path; a single
non-string argument is the only shape rejected with "OSRM base path must
be a string"; two or more arguments are accepted with empty paths and
the shared-memory flag off. -/
theorem construction_argument_cases :
    ∀ args : List JSVal,
      (args = [] → engineNew args = Except.ok ([], true)) ∧
      (∀ s, args = [JSVal.str s] →
        engineNew args = Except.ok ([("base", s)], false)) ∧
      (∀ v, args = [v] → v.isString = false →
        engineNew args = Except.error "OSRM base path must be a string") ∧
      (2 ≤ args.length → engineNew args = Except.ok ([], false)) := by
  intro args
  refine ⟨?_, ?_, ?_, ?_⟩
  · rintro rfl; rfl
  · rintro s rfl; rfl
  · rintro v rfl hv
    cases v <;> simp_all [JSVal.isString] <;> rfl
  · intro h
    rw [engineNew, if_neg (by omega)]
    simp [show args.length ≠ 0 by omega]

/-- C6 witness: the four construction shapes at concrete arguments. -/
theorem construction_argument_cases_witness :
    engineNew [] = Except.ok ([], true) ∧
    engineNew [JSVal.str "data.osrm"] = Except.ok ([("base", "data.osrm")], false) ∧
    engineNew [JSVal.num 7] = Except.error "OSRM base path must be a string" ∧
    engineNew [JSVal.str "a", JSVal.str "b", JSVal.str "c"] = Except.ok ([], false) :=
  ⟨(construction_argument_cases []).1 rfl,
   (construction_argument_cases [JSVal.str "data.osrm"]).2.1 "data.osrm" rfl,
   (construction_argument_cases [JSVal.num 7]).2.2.1 (JSVal.num 7) rfl rfl,
   (construction_argument_cases [JSVal.str "a", JSVal.str "b", JSVal.str "c"]).2.2.2
     (by decide)⟩

/-- C7 counterexample: a route call with the callback absent (only one
argument) fails with "two arguments required", not with "last argument
must be a callback function" as the claim states. -/
theorem absent_callback_message_differs :
    route [JSVal.obj [("coordinates",
        JSVal.arr [JSVal.arr [JSVal.num 1, JSVal.num 2],
                   JSVal.arr [JSVal.num 3, JSVal.num 4]])]] =
      SyncOutcome.thrown "two arguments required" ∧
    SyncOutcome.thrown "two arguments required" ≠
      SyncOutcome.thrown "last argument must be a callback function" :=
  ⟨by decide, by decide⟩

/-- C7 (amended): an absent callback (fewer than two arguments) fails
with "two arguments required" on all four operations; when the
operation's input validation succeeds and the trailing argument is not
callable, the call fails with "last argument must be a callback
function". -/
theorem callback_check_after_build :
    ∀ args : List JSVal,
      (args.length < 2 →
        route args = SyncOutcome.thrown "two arguments required" ∧
        table args = SyncOutcome.thrown "two arguments required" ∧
        locate args = SyncOutcome.thrown "two arguments required" ∧
        nearest args = SyncOutcome.thrown "two arguments required") ∧
      (∀ p, routeBuild args = Except.ok p → (lastArg args).isFunction = false →
        route args = SyncOutcome.thrown "last argument must be a callback function") ∧
      (∀ p, tableBuild args = Except.ok p → (lastArg args).isFunction = false →
        table args = SyncOutcome.thrown "last argument must be a callback function") ∧
      (∀ p, singleCoordBuild "locate" args = Except.ok p →
        (lastArg args).isFunction = false →
        locate args = SyncOutcome.thrown "last argument must be a callback function") ∧
      (∀ p, singleCoordBuild "nearest" args = Except.ok p →
        (lastArg args).isFunction = false →
        nearest args = SyncOutcome.thrown "last argument must be a callback function") := by
  intro args
  refine ⟨?_, ?_, ?_, ?_, ?_⟩
  · intro h
    exact ⟨by simp [route, routeBuild, dispatch, h],
           by simp [table, tableBuild, dispatch, h],
           by simp [locate, singleCoordBuild, dispatch, h],
           by simp [nearest, singleCoordBuild, dispatch, h]⟩
  · intro p hp hf; simp [route, hp, dispatch, Run, hf]
  · intro p hp hf; simp [table, hp, dispatch, Run, hf]
  · intro p hp hf; simp [locate, hp, dispatch, Run, hf]
  · intro p hp hf; simp [nearest, hp, dispatch, Run, hf]

/-- C7 witness: the absent-callback message at a zero-argument call, and
the callback-type message when validation succeeded but the trailing
argument is a number. -/
theorem callback_check_after_build_witness :
    route [] = SyncOutcome.thrown "two arguments required" ∧
    route [JSVal.obj [("coordinates",
        JSVal.arr [JSVal.arr [JSVal.num 1, JSVal.num 2],
                   JSVal.arr [JSVal.num 3, JSVal.num 4]])], JSVal.num 5] =
      SyncOutcome.thrown "last argument must be a callback function" ∧
    table [JSVal.obj [("coordinates",
        JSVal.arr [JSVal.arr [JSVal.num 1, JSVal.num 2],
                   JSVal.arr [JSVal.num 3, JSVal.num 4]])], JSVal.num 5] =
      SyncOutcome.thrown "last argument must be a callback function" ∧
    locate [JSVal.arr [JSVal.num 1, JSVal.num 2], JSVal.num 5] =
      SyncOutcome.thrown "last argument must be a callback function" ∧
    nearest [JSVal.arr [JSVal.num 1, JSVal.num 2], JSVal.num 5] =
      SyncOutcome.thrown "last argument must be a callback function" :=
  ⟨((callback_check_after_build []).1 (by decide)).1,
   (callback_check_after_build _).2.1
     { routeDefaults with
       coordinates := [JSVal.arr [JSVal.num 1, JSVal.num 2],
                       JSVal.arr [JSVal.num 3, JSVal.num 4]].map pairCoerce }
     rfl rfl,
   (callback_check_after_build _).2.2.1
     { RouteParameters.base with
       service := "table"
       coordinates := [JSVal.arr [JSVal.num 1, JSVal.num 2],
                       JSVal.arr [JSVal.num 3, JSVal.num 4]].map pairCoerce }
     rfl rfl,
   (callback_check_after_build _).2.2.2.1
     { RouteParameters.base with
       service := "locate"
       coordinates := [pairCoerce (JSVal.arr [JSVal.num 1, JSVal.num 2])] }
     rfl rfl,
   (callback_check_after_build _).2.2.2.2
     { RouteParameters.base with
       service := "nearest"
       coordinates := [pairCoerce (JSVal.arr [JSVal.num 1, JSVal.num 2])] }
     rfl rfl⟩

/-- C4 counterexample: the exact call the claim cites —
`table({coordinates:[[1,2],[3,4]], hints:[1,"abc"]}, cb)` — does NOT
fail with "hint must be null or string": `Engine::table` never reads the
`hints` field, so validation passes and a job is submitted. -/
theorem table_ignores_bad_hints :
    table [JSVal.obj [("coordinates",
        JSVal.arr [JSVal.arr [JSVal.num 1, JSVal.num 2],
                   JSVal.arr [JSVal.num 3, JSVal.num 4]]),
        ("hints", JSVal.arr [JSVal.num 1, JSVal.str "abc"])], JSVal.func 0] =
      SyncOutcome.submitted { RouteParameters.base with
        service := "table"
        coordinates := [(1000000, 2000000), (3000000, 4000000)] } := by
  have c1 : coerceCoordinate (JSVal.num 1) = (1000000 : ℤ) :=
    coerceCoordinate_eval rfl (by norm_num [COORDINATE_PRECISION])
  have c2 : coerceCoordinate (JSVal.num 2) = (2000000 : ℤ) :=
    coerceCoordinate_eval rfl (by norm_num [COORDINATE_PRECISION])
  have c3 : coerceCoordinate (JSVal.num 3) = (3000000 : ℤ) :=
    coerceCoordinate_eval rfl (by norm_num [COORDINATE_PRECISION])
  have c4 : coerceCoordinate (JSVal.num 4) = (4000000 : ℤ) :=
    coerceCoordinate_eval rfl (by norm_num [COORDINATE_PRECISION])
  have kl : [JSVal.arr [JSVal.num 1, JSVal.num 2],
             JSVal.arr [JSVal.num 3, JSVal.num 4]].map pairCoerce =
      [((1000000 : ℤ), (2000000 : ℤ)), ((3000000 : ℤ), (4000000 : ℤ))] := by
    show [(coerceCoordinate (JSVal.num 1), coerceCoordinate (JSVal.num 2)),
          (coerceCoordinate (JSVal.num 3), coerceCoordinate (JSVal.num 4))] = _
    rw [c1, c2, c3, c4]
  have hco : getProp (JSVal.obj [("coordinates",
      JSVal.arr [JSVal.arr [JSVal.num 1, JSVal.num 2],
                 JSVal.arr [JSVal.num 3, JSVal.num 4]]),
      ("hints", JSVal.arr [JSVal.num 1, JSVal.str "abc"])]) "coordinates" =
      JSVal.arr [JSVal.arr [JSVal.num 1, JSVal.num 2],
                 JSVal.arr [JSVal.num 3, JSVal.num 4]] := rfl
  rw [table, tableBuild_stage (JSVal.func 0) hco (by decide) (by decide), kl]
  rfl

/-- C4 (amended): the hints check belongs to `route` only: a route
request with valid coordinates and a hints array containing an element
that is neither a string nor null fails synchronously with "hint must be
null or string" before any engine work is scheduled; `table` ignores the
hints field entirely, so the claim's table call passes validation and
schedules engine work with empty hints. -/
theorem hint_validation_route_only :
    (∀ (fl : List (String × JSVal)) (cb : JSVal) (cs hs : List JSVal),
      hasProp (JSVal.obj fl) "coordinates" = true →
      getProp (JSVal.obj fl) "coordinates" = JSVal.arr cs →
      2 ≤ cs.length →
      (∀ c ∈ cs, goodPair c = true) →
      hasProp (JSVal.obj fl) "hints" = true →
      getProp (JSVal.obj fl) "hints" = JSVal.arr hs →
      (∃ x ∈ hs, x.isString = false ∧ x.isNull = false) →
      route [JSVal.obj fl, cb] =
        SyncOutcome.thrown "hint must be null or string") ∧
    table [JSVal.obj [("coordinates",
        JSVal.arr [JSVal.arr [JSVal.num 1, JSVal.num 2],
                   JSVal.arr [JSVal.num 3, JSVal.num 4]]),
        ("hints", JSVal.arr [JSVal.num 1, JSVal.str "abc"])], JSVal.func 0] =
      SyncOutcome.submitted { RouteParameters.base with
        service := "table"
        coordinates := [JSVal.arr [JSVal.num 1, JSVal.num 2],
                        JSVal.arr [JSVal.num 3, JSVal.num 4]].map pairCoerce
        hints := [] } := by
  constructor
  · intro fl cb cs hs hhas hco hlen hgood hh ha hbad
    rw [route, routeBuild_stage cb hco hhas hlen hgood,
        hintsStep_present_err _ hh ha (parseHints_error_of_bad hbad)]
    rfl
  · have hco : getProp (JSVal.obj [("coordinates",
        JSVal.arr [JSVal.arr [JSVal.num 1, JSVal.num 2],
                   JSVal.arr [JSVal.num 3, JSVal.num 4]]),
        ("hints", JSVal.arr [JSVal.num 1, JSVal.str "abc"])]) "coordinates" =
        JSVal.arr [JSVal.arr [JSVal.num 1, JSVal.num 2],
                   JSVal.arr [JSVal.num 3, JSVal.num 4]] := rfl
    rw [table, tableBuild_stage (JSVal.func 0) hco (by decide) (by decide)]
    rfl

/-- C4 witness: the route-side rejection at the claim's own input shape. -/
theorem hint_validation_route_only_witness :
    route [JSVal.obj [("coordinates",
        JSVal.arr [JSVal.arr [JSVal.num 1, JSVal.num 2],
                   JSVal.arr [JSVal.num 3, JSVal.num 4]]),
        ("hints", JSVal.arr [JSVal.num 1, JSVal.str "abc"])], JSVal.func 0] =
      SyncOutcome.thrown "hint must be null or string" :=
  hint_validation_route_only.1 _ (JSVal.func 0)
    [JSVal.arr [JSVal.num 1, JSVal.num 2], JSVal.arr [JSVal.num 3, JSVal.num 4]]
    [JSVal.num 1, JSVal.str "abc"]
    rfl rfl (by decide) (by decide) rfl rfl
    ⟨JSVal.num 1, by simp, rfl, rfl⟩

/-- C5 counterexample: a coordinate entry with a non-numeric component
(`null`) is NOT rejected: `NumberValue` coerces it (null becomes 0) and
the request is submitted, contradicting the claim that a non-numeric
entry component yields a ValidationError. -/
theorem non_numeric_component_accepted :
    route [JSVal.obj [("coordinates",
        JSVal.arr [JSVal.arr [JSVal.null, JSVal.num 2],
                   JSVal.arr [JSVal.num 3, JSVal.num 4]])], JSVal.func 0] =
      SyncOutcome.submitted { routeDefaults with
        coordinates := [(0, 2000000), (3000000, 4000000)] } := by
  have c0 : coerceCoordinate JSVal.null = (0 : ℤ) :=
    coerceCoordinate_eval rfl (by norm_num)
  have c2 : coerceCoordinate (JSVal.num 2) = (2000000 : ℤ) :=
    coerceCoordinate_eval rfl (by norm_num [COORDINATE_PRECISION])
  have c3 : coerceCoordinate (JSVal.num 3) = (3000000 : ℤ) :=
    coerceCoordinate_eval rfl (by norm_num [COORDINATE_PRECISION])
  have c4 : coerceCoordinate (JSVal.num 4) = (4000000 : ℤ) :=
    coerceCoordinate_eval rfl (by norm_num [COORDINATE_PRECISION])
  have kl : [JSVal.arr [JSVal.null, JSVal.num 2],
             JSVal.arr [JSVal.num 3, JSVal.num 4]].map pairCoerce =
      [((0 : ℤ), (2000000 : ℤ)), ((3000000 : ℤ), (4000000 : ℤ))] := by
    show [(coerceCoordinate JSVal.null, coerceCoordinate (JSVal.num 2)),
          (coerceCoordinate (JSVal.num 3), coerceCoordinate (JSVal.num 4))] = _
    rw [c0, c2, c3, c4]
  have hco : getProp (JSVal.obj [("coordinates",
      JSVal.arr [JSVal.arr [JSVal.null, JSVal.num 2],
                 JSVal.arr [JSVal.num 3, JSVal.num 4]])]) "coordinates" =
      JSVal.arr [JSVal.arr [JSVal.null, JSVal.num 2],
                 JSVal.arr [JSVal.num 3, JSVal.num 4]] := rfl
  have hnh : hasProp (JSVal.obj [("coordinates",
      JSVal.arr [JSVal.arr [JSVal.null, JSVal.num 2],
                 JSVal.arr [JSVal.num 3, JSVal.num 4]])]) "hints" = false := rfl
  rw [route, routeBuild_stage (JSVal.func 0) hco rfl (by decide) (by decide),
      hintsStep_absent _ hnh, kl]
  rfl

/-- C5 (amended): for route and table the `coordinates` field must be an
array of at least 2 entries, each an array of exactly 2 elements; the
field not being an array, having fewer than two entries, an entry that
is not an array, or an entry of length other than 2 each yield the named
synchronous ValidationError — but entry components are NOT validated as
numbers: they are coerced with `NumberValue`, so any well-shaped entry
is accepted and the request submitted. -/
theorem coordinate_shape_validation :
    ∀ (fl : List (String × JSVal)) (cb : JSVal) (v : JSVal)
      (cs : List JSVal) (k : ℕ),
      (hasProp (JSVal.obj fl) "coordinates" = true →
        getProp (JSVal.obj fl) "coordinates" = v → v.isArray = false →
        route [JSVal.obj fl, cb] = SyncOutcome.thrown pairsMsg) ∧
      (hasProp (JSVal.obj fl) "coordinates" = true →
        getProp (JSVal.obj fl) "coordinates" = JSVal.arr cs → cs.length < 2 →
        route [JSVal.obj fl, cb] =
          SyncOutcome.thrown "at least two coordinates must be provided") ∧
      (hasProp (JSVal.obj fl) "coordinates" = true →
        getProp (JSVal.obj fl) "coordinates" = JSVal.arr cs → 2 ≤ cs.length →
        (∃ c ∈ cs, goodPair c = false) →
        route [JSVal.obj fl, cb] = SyncOutcome.thrown pairsMsg) ∧
      (hasProp (JSVal.obj fl) "coordinates" = true →
        getProp (JSVal.obj fl) "coordinates" = JSVal.arr cs → 2 ≤ cs.length →
        (∀ c ∈ cs, goodPair c = true) →
        hasProp (JSVal.obj fl) "hints" = false →
        route [JSVal.obj fl, JSVal.func k] = SyncOutcome.submitted
          (applyOptionals (JSVal.obj fl)
            { routeDefaults with coordinates := cs.map pairCoerce })) ∧
      (getProp (JSVal.obj fl) "coordinates" = v → v.isArray = false →
        table [JSVal.obj fl, cb] = SyncOutcome.thrown pairsMsg) ∧
      (getProp (JSVal.obj fl) "coordinates" = JSVal.arr cs → cs.length < 2 →
        table [JSVal.obj fl, cb] =
          SyncOutcome.thrown "at least two coordinates must be provided") ∧
      (getProp (JSVal.obj fl) "coordinates" = JSVal.arr cs → 2 ≤ cs.length →
        (∃ c ∈ cs, goodPair c = false) →
        table [JSVal.obj fl, cb] = SyncOutcome.thrown pairsMsg) ∧
      (getProp (JSVal.obj fl) "coordinates" = JSVal.arr cs → 2 ≤ cs.length →
        (∀ c ∈ cs, goodPair c = true) →
        table [JSVal.obj fl, JSVal.func k] = SyncOutcome.submitted
          { RouteParameters.base with
            service := "table", coordinates := cs.map pairCoerce }) := by
  intro fl cb v cs k
  refine ⟨?_, ?_, ?_, ?_, ?_, ?_, ?_, ?_⟩
  · intro hhas hco hv
    rw [route, routeBuild_coords_not_array cb hhas hco hv]; rfl
  · intro hhas hco hlen
    rw [route, routeBuild_coords_short cb hhas hco hlen]; rfl
  · intro hhas hco hlen hbad
    rw [route, routeBuild_coords_badpair cb hhas hco hlen hbad]; rfl
  · intro hhas hco hlen hgood hnoh
    rw [route, routeBuild_stage (JSVal.func k) hco hhas hlen hgood,
        hintsStep_absent _ hnoh]
    rfl
  · intro hco hv
    rw [table, tableBuild_coords_not_array cb hco hv]; rfl
  · intro hco hlen
    rw [table, tableBuild_coords_short cb hco hlen]; rfl
  · intro hco hlen hbad
    rw [table, tableBuild_coords_badpair cb hco hlen hbad]; rfl
  · intro hco hlen hgood
    rw [table, tableBuild_stage (JSVal.func k) hco hlen hgood]
    rfl

/-- C5 witness: each of the four structural deviations at a concrete
input, for route and for table, plus the acceptance of a well-shaped
entry with a non-numeric (string) component. -/
theorem coordinate_shape_validation_witness :
    route [JSVal.obj [("coordinates", JSVal.num 7)], JSVal.func 0] =
      SyncOutcome.thrown pairsMsg ∧
    route [JSVal.obj [("coordinates",
        JSVal.arr [JSVal.arr [JSVal.num 1, JSVal.num 2]])], JSVal.func 0] =
      SyncOutcome.thrown "at least two coordinates must be provided" ∧
    route [JSVal.obj [("coordinates",
        JSVal.arr [JSVal.arr [JSVal.num 1, JSVal.num 2], JSVal.num 9])],
        JSVal.func 0] = SyncOutcome.thrown pairsMsg ∧
    route [JSVal.obj [("coordinates",
        JSVal.arr [JSVal.arr [JSVal.str "x", JSVal.num 2],
                   JSVal.arr [JSVal.num 3, JSVal.num 4]])], JSVal.func 0] =
      SyncOutcome.submitted
        (applyOptionals (JSVal.obj [("coordinates",
            JSVal.arr [JSVal.arr [JSVal.str "x", JSVal.num 2],
                       JSVal.arr [JSVal.num 3, JSVal.num 4]])])
          { routeDefaults with
            coordinates := [JSVal.arr [JSVal.str "x", JSVal.num 2],
                            JSVal.arr [JSVal.num 3, JSVal.num 4]].map pairCoerce }) ∧
    table [JSVal.obj [("coordinates", JSVal.num 7)], JSVal.func 0] =
      SyncOutcome.thrown pairsMsg ∧
    table [JSVal.obj [("coordinates",
        JSVal.arr [JSVal.arr [JSVal.num 1, JSVal.num 2]])], JSVal.func 0] =
      SyncOutcome.thrown "at least two coordinates must be provided" ∧
    table [JSVal.obj [("coordinates",
        JSVal.arr [JSVal.arr [JSVal.num 1, JSVal.num 2],
                   JSVal.arr [JSVal.num 9]])], JSVal.func 0] =
      SyncOutcome.thrown pairsMsg ∧
    table [JSVal.obj [("coordinates",
        JSVal.arr [JSVal.arr [JSVal.num 1, JSVal.num 2],
                   JSVal.arr [JSVal.num 3, JSVal.num 4]])], JSVal.func 0] =
      SyncOutcome.submitted { RouteParameters.base with
        service := "table"
        coordinates := [JSVal.arr [JSVal.num 1, JSVal.num 2],
                        JSVal.arr [JSVal.num 3, JSVal.num 4]].map pairCoerce } :=
  ⟨(coordinate_shape_validation [("coordinates", JSVal.num 7)] (JSVal.func 0)
      (JSVal.num 7) [] 0).1 rfl rfl rfl,
   (coordinate_shape_validation _ (JSVal.func 0) JSVal.undefined
      [JSVal.arr [JSVal.num 1, JSVal.num 2]] 0).2.1 rfl rfl (by decide),
   (coordinate_shape_validation _ (JSVal.func 0) JSVal.undefined
      [JSVal.arr [JSVal.num 1, JSVal.num 2], JSVal.num 9] 0).2.2.1 rfl rfl
      (by decide) ⟨JSVal.num 9, by simp, rfl⟩,
   (coordinate_shape_validation _ (JSVal.func 0) JSVal.undefined
      [JSVal.arr [JSVal.str "x", JSVal.num 2],
       JSVal.arr [JSVal.num 3, JSVal.num 4]] 0).2.2.2.1 rfl rfl (by decide)
      (by decide) rfl,
   (coordinate_shape_validation [("coordinates", JSVal.num 7)] (JSVal.func 0)
      (JSVal.num 7) [] 0).2.2.2.2.1 rfl rfl,
   (coordinate_shape_validation _ (JSVal.func 0) JSVal.undefined
      [JSVal.arr [JSVal.num 1, JSVal.num 2]] 0).2.2.2.2.2.1 rfl (by decide),
   (coordinate_shape_validation _ (JSVal.func 0) JSVal.undefined
      [JSVal.arr [JSVal.num 1, JSVal.num 2], JSVal.arr [JSVal.num 9]]
      0).2.2.2.2.2.2.1 rfl (by decide) ⟨JSVal.arr [JSVal.num 9], by simp, rfl⟩,
   (coordinate_shape_validation _ (JSVal.func 0) JSVal.undefined
      [JSVal.arr [JSVal.num 1, JSVal.num 2],
       JSVal.arr [JSVal.num 3, JSVal.num 4]] 0).2.2.2.2.2.2.2 rfl (by decide)
      (by decide)⟩

/-- C8: each numeric coordinate component accepted by validation is
stored as `truncate(a * PRECISION)` with truncation toward zero (floor
for nonnegative, ceiling for negative values), and the conversion is
total on numeric input: a well-shaped numeric pair is always accepted
and coerced. -/
theorem coordinate_scaling_truncates_toward_zero :
    ∀ a b : ℚ,
      coerceCoordinate (JSVal.num a) =
        truncTowardZero (a * COORDINATE_PRECISION) ∧
      parseCoordinates [JSVal.arr [JSVal.num a, JSVal.num b]] =
        Except.ok [(truncTowardZero (a * COORDINATE_PRECISION),
                    truncTowardZero (b * COORDINATE_PRECISION))] := by
  intro a b
  refine ⟨coerceCoordinate_num a, ?_⟩
  show Except.ok [(coerceCoordinate (JSVal.num a), coerceCoordinate (JSVal.num b))] = _
  rw [coerceCoordinate_num a, coerceCoordinate_num b]

/-- C9: for every route request that results in a submitted job, each
optional field absent from the input keeps its documented default
(alternate_route = true, checksum = 0, zoom_level = 18,
print_instructions = false, jsonp_parameter = empty), each optional
field present is applied through the source's coercion, and a hints
array's entries land in the descriptor with every `null` entry mapped to
the empty-string hint. -/
theorem route_optional_field_defaults_and_application :
    ∀ (args : List JSVal) (p : RouteParameters),
      route args = SyncOutcome.submitted p →
      (hasProp (firstArg args) "alternateRoute" = false →
        p.alternate_route = true) ∧
      (hasProp (firstArg args) "checksum" = false → p.check_sum = 0) ∧
      (hasProp (firstArg args) "zoomLevel" = false → p.zoom_level = 18) ∧
      (hasProp (firstArg args) "printInstructions" = false →
        p.print_instructions = false) ∧
      (hasProp (firstArg args) "jsonpParameter" = false →
        p.jsonp_parameter = "") ∧
      (hasProp (firstArg args) "alternateRoute" = true →
        p.alternate_route = toBoolean (getProp (firstArg args) "alternateRoute")) ∧
      (hasProp (firstArg args) "checksum" = true →
        p.check_sum = toUint32 (getProp (firstArg args) "checksum")) ∧
      (hasProp (firstArg args) "zoomLevel" = true →
        p.zoom_level = castShort (toInt32 (getProp (firstArg args) "zoomLevel"))) ∧
      (hasProp (firstArg args) "printInstructions" = true →
        p.print_instructions =
          toBoolean (getProp (firstArg args) "printInstructions")) ∧
      (hasProp (firstArg args) "jsonpParameter" = true →
        p.jsonp_parameter = toStringJS (getProp (firstArg args) "jsonpParameter")) ∧
      (∀ hs, hasProp (firstArg args) "hints" = true →
        getProp (firstArg args) "hints" = JSVal.arr hs →
        p.hints = hs.map hintToString) ∧
      hintToString JSVal.null = "" := by
  intro args p h
  obtain ⟨hb, -⟩ := route_submitted_inv h
  simp only [routeBuild] at hb
  split at hb
  · exact absurd hb (by simp)
  split at hb
  · split at hb
    · exact absurd hb (by simp)
    · split at hb
      · split at hb
        · split at hb
          · exact absurd hb (by simp)
          · split at hb
            · exact absurd hb (by simp)
            · obtain ⟨hz, hpi, har, hcs, hjp, -⟩ := hintsStep_ok_scalars hb
              refine ⟨?_, ?_, ?_, ?_, ?_, ?_, ?_, ?_, ?_, ?_, ?_, rfl⟩
              · intro hf; rw [har]; simp [applyOptionals, hf, routeDefaults]
              · intro hf; rw [hcs]; simp [applyOptionals, hf, routeDefaults]
              · intro hf; rw [hz]; simp [applyOptionals, hf, routeDefaults]
              · intro hf; rw [hpi]; simp [applyOptionals, hf, routeDefaults]
              · intro hf; rw [hjp]; simp [applyOptionals, hf, routeDefaults]
              · intro ht; rw [har]; simp [applyOptionals, ht]
              · intro ht; rw [hcs]; simp [applyOptionals, ht]
              · intro ht; rw [hz]; simp [applyOptionals, ht]
              · intro ht; rw [hpi]; simp [applyOptionals, ht]
              · intro ht; rw [hjp]; simp [applyOptionals, ht]
              · intro hs hh ha
                rw [hintsStep_ok_hints hb hh ha, applyOptionals_hints]
                simp [routeDefaults]
        · exact absurd hb (by simp)
      · exact absurd hb (by simp)
  · exact absurd hb (by simp)

/-- C9 witness: a route call with `zoomLevel` present, the other
optional fields absent, and a hints array holding a null and a string. -/
theorem route_optional_field_defaults_and_application_witness :
    ({ routeDefaults with
       zoom_level := castShort (toInt32 (JSVal.num 5))
       coordinates := [JSVal.arr [JSVal.num 1, JSVal.num 2],
                       JSVal.arr [JSVal.num 3, JSVal.num 4]].map pairCoerce
       hints := ["", "h1"] } : RouteParameters).alternate_route = true ∧
    ({ routeDefaults with
       zoom_level := castShort (toInt32 (JSVal.num 5))
       coordinates := [JSVal.arr [JSVal.num 1, JSVal.num 2],
                       JSVal.arr [JSVal.num 3, JSVal.num 4]].map pairCoerce
       hints := ["", "h1"] } : RouteParameters).check_sum = 0 ∧
    ({ routeDefaults with
       zoom_level := castShort (toInt32 (JSVal.num 5))
       coordinates := [JSVal.arr [JSVal.num 1, JSVal.num 2],
                       JSVal.arr [JSVal.num 3, JSVal.num 4]].map pairCoerce
       hints := ["", "h1"] } : RouteParameters).zoom_level =
      castShort (toInt32 (JSVal.num 5)) ∧
    ({ routeDefaults with
       zoom_level := castShort (toInt32 (JSVal.num 5))
       coordinates := [JSVal.arr [JSVal.num 1, JSVal.num 2],
                       JSVal.arr [JSVal.num 3, JSVal.num 4]].map pairCoerce
       hints := ["", "h1"] } : RouteParameters).hints =
      [JSVal.null, JSVal.str "h1"].map hintToString ∧
    hintToString JSVal.null = "" := by
  have hsub : route [JSVal.obj [("coordinates",
      JSVal.arr [JSVal.arr [JSVal.num 1, JSVal.num 2],
                 JSVal.arr [JSVal.num 3, JSVal.num 4]]),
      ("zoomLevel", JSVal.num 5),
      ("hints", JSVal.arr [JSVal.null, JSVal.str "h1"])], JSVal.func 0] =
      SyncOutcome.submitted { routeDefaults with
        zoom_level := castShort (toInt32 (JSVal.num 5))
        coordinates := [JSVal.arr [JSVal.num 1, JSVal.num 2],
                        JSVal.arr [JSVal.num 3, JSVal.num 4]].map pairCoerce
        hints := ["", "h1"] } := by
    have hco : getProp (JSVal.obj [("coordinates",
        JSVal.arr [JSVal.arr [JSVal.num 1, JSVal.num 2],
                   JSVal.arr [JSVal.num 3, JSVal.num 4]]),
        ("zoomLevel", JSVal.num 5),
        ("hints", JSVal.arr [JSVal.null, JSVal.str "h1"])]) "coordinates" =
        JSVal.arr [JSVal.arr [JSVal.num 1, JSVal.num 2],
                   JSVal.arr [JSVal.num 3, JSVal.num 4]] := rfl
    have hha : getProp (JSVal.obj [("coordinates",
        JSVal.arr [JSVal.arr [JSVal.num 1, JSVal.num 2],
                   JSVal.arr [JSVal.num 3, JSVal.num 4]]),
        ("zoomLevel", JSVal.num 5),
        ("hints", JSVal.arr [JSVal.null, JSVal.str "h1"])]) "hints" =
        JSVal.arr [JSVal.null, JSVal.str "h1"] := rfl
    have hhp : hasProp (JSVal.obj [("coordinates",
        JSVal.arr [JSVal.arr [JSVal.num 1, JSVal.num 2],
                   JSVal.arr [JSVal.num 3, JSVal.num 4]]),
        ("zoomLevel", JSVal.num 5),
        ("hints", JSVal.arr [JSVal.null, JSVal.str "h1"])]) "hints" = true := rfl
    rw [route, routeBuild_stage (JSVal.func 0) hco rfl (by decide) (by decide),
        hintsStep_present_arr _ hhp hha
          (parseHints_ok_of_all (by
            intro x hx
            fin_cases hx <;> simp [JSVal.isNull, JSVal.isString]))]
    rfl
  have T := route_optional_field_defaults_and_application _ _ hsub
  exact ⟨T.1 rfl, T.2.1 rfl, T.2.2.2.2.2.2.2.1 rfl,
    T.2.2.2.2.2.2.2.2.2.2.1 [JSVal.null, JSVal.str "h1"] rfl rfl,
    T.2.2.2.2.2.2.2.2.2.2.2⟩

/-- C10: the hints array length is never compared against the
coordinate count: any hints array whose entries are all strings or null
passes validation — empty, shorter or longer than the coordinate list —
and its entries are appended to the descriptor in input order. -/
theorem route_hints_length_unchecked :
    ∀ (q1 q2 q3 q4 : ℚ) (k : ℕ) (hs : List JSVal),
      (∀ x ∈ hs, x.isString = true ∨ x.isNull = true) →
      route [JSVal.obj [("coordinates",
          JSVal.arr [JSVal.arr [JSVal.num q1, JSVal.num q2],
                     JSVal.arr [JSVal.num q3, JSVal.num q4]]),
          ("hints", JSVal.arr hs)], JSVal.func k] =
        SyncOutcome.submitted { routeDefaults with
          coordinates := [(coerceCoordinate (JSVal.num q1),
                           coerceCoordinate (JSVal.num q2)),
                          (coerceCoordinate (JSVal.num q3),
                           coerceCoordinate (JSVal.num q4))]
          hints := hs.map hintToString } := by
  intro q1 q2 q3 q4 k hs hgood
  have hco : getProp (JSVal.obj [("coordinates",
      JSVal.arr [JSVal.arr [JSVal.num q1, JSVal.num q2],
                 JSVal.arr [JSVal.num q3, JSVal.num q4]]),
      ("hints", JSVal.arr hs)]) "coordinates" =
      JSVal.arr [JSVal.arr [JSVal.num q1, JSVal.num q2],
                 JSVal.arr [JSVal.num q3, JSVal.num q4]] := rfl
  have hha : getProp (JSVal.obj [("coordinates",
      JSVal.arr [JSVal.arr [JSVal.num q1, JSVal.num q2],
                 JSVal.arr [JSVal.num q3, JSVal.num q4]]),
      ("hints", JSVal.arr hs)]) "hints" = JSVal.arr hs := rfl
  have hg : ∀ c ∈ [JSVal.arr [JSVal.num q1, JSVal.num q2],
      JSVal.arr [JSVal.num q3, JSVal.num q4]], goodPair c = true := by
    intro c hc
    simp only [List.mem_cons, List.not_mem_nil, or_false] at hc
    rcases hc with rfl | rfl <;> rfl
  have hhp : hasProp (JSVal.obj [("coordinates",
      JSVal.arr [JSVal.arr [JSVal.num q1, JSVal.num q2],
                 JSVal.arr [JSVal.num q3, JSVal.num q4]]),
      ("hints", JSVal.arr hs)]) "hints" = true := rfl
  rw [route, routeBuild_stage (JSVal.func k) hco rfl (by simp) hg,
      hintsStep_present_arr _ hhp hha (parseHints_ok_of_all hgood)]
  rfl

/-- C10 witness: a hints array of length 3 against 2 coordinates is
accepted and appended in order. -/
theorem route_hints_length_unchecked_witness :
    route [JSVal.obj [("coordinates",
        JSVal.arr [JSVal.arr [JSVal.num 1, JSVal.num 2],
                   JSVal.arr [JSVal.num 3, JSVal.num 4]]),
        ("hints", JSVal.arr [JSVal.str "a", JSVal.null, JSVal.str "b"])],
        JSVal.func 0] =
      SyncOutcome.submitted { routeDefaults with
        coordinates := [(coerceCoordinate (JSVal.num 1),
                         coerceCoordinate (JSVal.num 2)),
                        (coerceCoordinate (JSVal.num 3),
                         coerceCoordinate (JSVal.num 4))]
        hints := ["a", "", "b"] } :=
  route_hints_length_unchecked 1 2 3 4 0
    [JSVal.str "a", JSVal.null, JSVal.str "b"]
    (by intro x hx; fin_cases hx <;> simp [JSVal.isNull, JSVal.isString])

end NodeOsrm
